import Mathlib

/-!
Shallow embedding of the weather backend (`app-nation-case`):
the weather lookup service (`src/services/weatherService.ts`), the
authentication service (`src/services/authService.ts`) and the weather
controller (`src/controllers/weatherController.ts`).

External collaborators (Redis cache, the OpenWeather HTTP provider, the
Prisma datastore, bcrypt, jsonwebtoken) are modelled as components of an
explicit environment record; each service call is a pure function from
that environment to a result together with the side effects it performed
(cache reads/writes, history rows created, provider calls).  JSON
serialization of cache entries round-trips on the well-formed objects the
service stores, so the cache is modelled as holding the parsed
`WeatherData` value that `JSON.parse` would return.
-/

/-- Role enumeration, from `prisma/schema.prisma` (`enum UserRole`). -/
inductive UserRole where
  | ADMIN
  | USER
deriving DecidableEq, Repr

/-- Type `WeatherData` from `src/types/index.ts`: the normalized reading the
service returns and caches.  Optional TS fields become `Option`. -/
structure WeatherData where
  city : String
  country : Option String
  temperature : ℚ
  humidity : Option Int
  description : Option String
  icon : Option String
deriving DecidableEq, Repr

/-- One element of the provider's `weather` array
(`OpenWeatherResponse` in `src/types/index.ts`). -/
structure WeatherCondition where
  description : String
  icon : String
deriving DecidableEq, Repr

/-- The `main` object of the provider response. -/
structure OwMain where
  temp : ℚ
  humidity : Int
deriving DecidableEq, Repr

/-- The `sys` object of the provider response. -/
structure OwSys where
  country : String
deriving DecidableEq, Repr

/-- Type `OpenWeatherResponse` from `src/types/index.ts`. -/
structure OpenWeatherResponse where
  weather : List WeatherCondition
  main : OwMain
  sys : OwSys
  name : String
deriving DecidableEq, Repr

/-- Outcome of the axios call to the provider: a successful response, an
axios error (optionally carrying the HTTP status of `error.response`), or
a non-axios failure. -/
inductive ProviderOutcome where
  | ok (resp : OpenWeatherResponse)
  | axiosError (status : Option Nat)
  | otherError
deriving DecidableEq, Repr

/-- The errors `WeatherService.getWeatherData` can throw. -/
inductive WeatherError where
  | cityNotFound (city : String)
  | fetchFailed
deriving DecidableEq, Repr

/-- The message of the thrown `Error`, as built in the service's catch
block: a 404 axios error yields the template string with the city, any
other failure the generic message. -/
def WeatherError.message : WeatherError → String
  | .cityNotFound city => "City '" ++ city ++ "' not found"
  | .fetchFailed => "Failed to fetch weather data"

/-- A row of the `weather_queries` table as created by
`WeatherService.saveWeatherQuery` (the `data` object of
`prisma.weatherQuery.create`). -/
structure HistoryRecord where
  city : String
  country : Option String
  temperature : ℚ
  humidity : Option Int
  description : Option String
  icon : Option String
  userId : String
deriving DecidableEq, Repr

/-- One `redisClient.setEx` call: key, TTL in seconds, stored value. -/
structure CacheWrite where
  key : String
  ttl : Nat
  value : WeatherData
deriving DecidableEq, Repr

/-- Environment of one `getWeatherData` call: the cache contents visible
to `redisClient.get`, the provider's behaviour per queried city, and
whether `redisClient.setEx` and `prisma.weatherQuery.create` succeed. -/
structure WeatherEnv where
  cache : String → Option WeatherData
  provider : String → ProviderOutcome
  cacheSetOk : Bool
  dbCreateOk : Bool

/-- Result of a `getWeatherData` call: the returned reading or thrown
error, plus the observable side effects. -/
structure LookupResult where
  result : Except WeatherError WeatherData
  cacheReads : List String
  cacheWrites : List CacheWrite
  historyWrites : List HistoryRecord
  providerCalled : Bool
deriving Repr

/-- JS `String.prototype.toLowerCase` on the model's strings:
character-wise lowering. -/
def lowercase (s : String) : String := ⟨s.data.map Char.toLower⟩

/-- The history row `saveWeatherQuery` builds for a reading and user
(`country ?? null` etc. are the identity on the `Option` model). -/
def historyRecordOf (weatherData : WeatherData) (userId : String) : HistoryRecord :=
  { city := weatherData.city
    country := weatherData.country
    temperature := weatherData.temperature
    humidity := weatherData.humidity
    description := weatherData.description
    icon := weatherData.icon
    userId := userId }

/-- Method `WeatherService.saveWeatherQuery`: attempts one
`prisma.weatherQuery.create`; a create failure is caught inside the
method (logged and swallowed), so it never throws.  Returns the list of
rows actually persisted. -/
def saveWeatherQuery (env : WeatherEnv) (weatherData : WeatherData)
    (userId : String) : List HistoryRecord :=
  if env.dbCreateOk then [historyRecordOf weatherData userId] else []

/-- Construction of the `WeatherData` object on the provider-success
path (lines 50-57 of the service): first condition's description/icon,
`|| ''` when the `weather` array is empty. -/
def buildWeatherData (resp : OpenWeatherResponse) : WeatherData :=
  { city := resp.name
    country := some resp.sys.country
    temperature := resp.main.temp
    humidity := some resp.main.humidity
    description := some ((resp.weather.head?.map WeatherCondition.description).getD "")
    icon := some ((resp.weather.head?.map WeatherCondition.icon).getD "") }

/-- Method `WeatherService.getWeatherData(city, userId)`.  Cache-aside: read
`weather:<lowercased city>`; on a hit return the parsed cached reading
after a best-effort history write; on a miss call the provider, and on
success build the reading, cache it with the 300 s TTL
(`cacheExpiry`), write history best-effort and return it.  A rejected
`setEx` reaches the outer catch and, not being an axios 404, becomes the
generic failure.  An axios error with response status 404 becomes the
city-not-found error; anything else the generic one. -/
def getWeatherData (env : WeatherEnv) (city : String) (userId : String) :
    LookupResult :=
  let cacheKey := "weather:" ++ lowercase city
  match env.cache cacheKey with
  | some weatherData =>
    { result := .ok weatherData
      cacheReads := [cacheKey]
      cacheWrites := []
      historyWrites := saveWeatherQuery env weatherData userId
      providerCalled := false }
  | none =>
    match env.provider city with
    | .ok resp =>
      let weatherData := buildWeatherData resp
      if env.cacheSetOk then
        { result := .ok weatherData
          cacheReads := [cacheKey]
          cacheWrites := [⟨cacheKey, 300, weatherData⟩]
          historyWrites := saveWeatherQuery env weatherData userId
          providerCalled := true }
      else
        { result := .error .fetchFailed
          cacheReads := [cacheKey]
          cacheWrites := []
          historyWrites := []
          providerCalled := true }
    | .axiosError status =>
      if status = some 404 then
        { result := .error (.cityNotFound city)
          cacheReads := [cacheKey]
          cacheWrites := []
          historyWrites := []
          providerCalled := true }
      else
        { result := .error .fetchFailed
          cacheReads := [cacheKey]
          cacheWrites := []
          historyWrites := []
          providerCalled := true }
    | .otherError =>
      { result := .error .fetchFailed
        cacheReads := [cacheKey]
        cacheWrites := []
        historyWrites := []
        providerCalled := true }

/-- Environment of a `clearCache` call: the result of a
`redisClient.keys` scan (which may reject) and whether
`redisClient.del` succeeds. -/
structure RedisEnv where
  keysResult : Except Unit (List String)
  delOk : Bool

/-- Result of `clearCache`: normal return or thrown error message, the
patterns scanned with `keys`, and the batches of keys passed to `del`
that took effect. -/
structure ClearResult where
  result : Except String Unit
  scans : List String
  deletes : List (List String)
deriving Repr

/-- Method `WeatherService.clearCache(city?)`.  A truthy `city` (present and
non-empty, per JS truthiness of the optional parameter) deletes the
single normalized key; otherwise all keys from the `keys` scan with
pattern `weather:*` are deleted in one `del` call, skipped when the scan
comes back empty.  Any rejected redis call reaches the catch block and
throws the fixed message. -/
def clearCache (env : RedisEnv) (city : Option String) : ClearResult :=
  match city with
  | some c =>
    if c = "" then clearCacheAll env
    else
      let cacheKey := "weather:" ++ lowercase c
      if env.delOk then
        { result := .ok (), scans := [], deletes := [[cacheKey]] }
      else
        { result := .error "Failed to clear cache", scans := [], deletes := [] }
  | none => clearCacheAll env
where
  /-- The `else` branch of `clearCache`: scan `weather:*` and delete the
  batch when non-empty. -/
  clearCacheAll (env : RedisEnv) : ClearResult :=
    match env.keysResult with
    | .error _ =>
      { result := .error "Failed to clear cache", scans := ["weather:*"], deletes := [] }
    | .ok keys =>
      if keys.length > 0 then
        if env.delOk then
          { result := .ok (), scans := ["weather:*"], deletes := [keys] }
        else
          { result := .error "Failed to clear cache", scans := ["weather:*"], deletes := [] }
      else
        { result := .ok (), scans := ["weather:*"], deletes := [] }

/-- JS `a || b` on an optional string: the fallback replaces both a
missing and an empty (falsy) value. -/
def jsOrString (value : Option String) (fallback : String) : String :=
  match value with
  | some s => if s = "" then fallback else s
  | none => fallback

/-- The configuration a successfully constructed `WeatherService`
holds. -/
structure WeatherServiceConfig where
  apiKey : String
  baseUrl : String
deriving DecidableEq, Repr

/-- The `WeatherService` constructor: reads `OPENWEATHER_API_KEY` (falling
back to `''`) and `OPENWEATHER_BASE_URL` (falling back to the public
OpenWeather URL), then throws when the API key is falsy. -/
def weatherServiceConstructor (apiKeyEnv : Option String)
    (baseUrlEnv : Option String) : Except String WeatherServiceConfig :=
  let apiKey := jsOrString apiKeyEnv ""
  let baseUrl := jsOrString baseUrlEnv "https://api.openweathermap.org/data/2.5"
  if apiKey = "" then .error "OpenWeather API key is required"
  else .ok { apiKey := apiKey, baseUrl := baseUrl }

/-- The denormalized owning-user view selected by the `include` of
`getWeatherQueries` (`select: id, name, email`). -/
structure DbUserView where
  id : String
  name : String
  email : String
deriving DecidableEq, Repr

/-- A stored row of the `weather_queries` table, with its creation
timestamp (modelled as a natural number; only its order matters). -/
structure StoredQuery where
  id : String
  city : String
  country : Option String
  temperature : ℚ
  humidity : Option Int
  description : Option String
  icon : Option String
  userId : String
  createdAt : Nat
deriving DecidableEq, Repr

/-- A returned history record: the row joined with the owning user's
selected fields. -/
structure QueryWithUser where
  query : StoredQuery
  user : DbUserView
deriving DecidableEq, Repr

/-- Datastore state visible to `getWeatherQueries`: the stored rows and
the owning user of each user id (the foreign key always resolves). -/
structure WeatherDb where
  queries : List StoredQuery
  users : String → DbUserView

/-- The `pagination` object of the response. -/
structure PageInfo where
  page : Nat
  limit : Nat
  total : Nat
  totalPages : Int
deriving DecidableEq, Repr

/-- The value `getWeatherQueries` resolves with. -/
structure QueriesPage where
  data : List QueryWithUser
  pageInfo : PageInfo
deriving DecidableEq, Repr

/-- Relation for `orderBy: createdAt desc` — `a` comes no later than `b` in the
output when `b`'s timestamp is at most `a`'s. -/
def newerFirst (a b : StoredQuery) : Prop :=
  b.createdAt ≤ a.createdAt

instance : DecidableRel newerFirst :=
  fun a b => Nat.decLe b.createdAt a.createdAt

instance : IsTotal StoredQuery newerFirst :=
  ⟨fun a b => Nat.le_total b.createdAt a.createdAt⟩

instance : IsTrans StoredQuery newerFirst :=
  ⟨fun _ _ _ hab hbc => Nat.le_trans hbc hab⟩

/-- The rows selected by the `whereClause` of `getWeatherQueries`:
`{}` for an ADMIN, `{ userId }` otherwise. -/
def visibleQueries (db : WeatherDb) (userId : String) (userRole : UserRole) :
    List StoredQuery :=
  match userRole with
  | .ADMIN => db.queries
  | .USER => db.queries.filter (fun q => q.userId = userId)

/-- Method `WeatherService.getWeatherQueries(userId, userRole, page, limit)`:
filter by the visibility clause, order newest first, skip
`(page - 1) * limit` rows, take `limit`, join each row with the owning
user's id/name/email, and report `total` (the `count` over the same
clause) and `totalPages = Math.ceil(total / limit)`. -/
def getWeatherQueries (db : WeatherDb) (userId : String)
    (userRole : UserRole) (page : Nat) (limit : Nat) : QueriesPage :=
  let skip := (page - 1) * limit
  let matching := visibleQueries db userId userRole
  let ordered := List.insertionSort newerFirst matching
  let pageData := ((ordered.drop skip).take limit).map
    (fun q => { query := q, user := db.users q.userId })
  let total := matching.length
  { data := pageData
    pageInfo :=
      { page := page
        limit := limit
        total := total
        totalPages := ⌈(total : ℚ) / (limit : ℚ)⌉ } }

/-- The TS signature's default arguments `page = 1, limit = 10`. -/
def getWeatherQueriesDefault (db : WeatherDb) (userId : String)
    (userRole : UserRole) : QueriesPage :=
  getWeatherQueries db userId userRole 1 10

/-- A stored user row (`users` table): the password field holds the
bcrypt hash. -/
structure StoredUser where
  id : String
  email : String
  password : String
  name : String
  role : UserRole
deriving DecidableEq, Repr

/-- The JWT payload (`JWTPayload` in `src/types/index.ts`). -/
structure JWTPayload where
  userId : String
  email : String
  role : UserRole
deriving DecidableEq, Repr

/-- The sanitized user object `loginUser` returns (no password). -/
structure PublicUser where
  id : String
  email : String
  name : String
  role : UserRole
deriving DecidableEq, Repr

/-- The value `loginUser` resolves with on success. -/
structure LoginSuccess where
  user : PublicUser
  token : String
deriving DecidableEq, Repr

/-- Environment of a `loginUser` call: `prisma.user.findUnique` by
email, `bcrypt.compare(plain, hash)`, and `jwt.sign` on the payload
(deterministic given the process-wide secret and expiry). -/
structure AuthEnv where
  findUserByEmail : String → Option StoredUser
  bcryptCompare : String → String → Bool
  sign : JWTPayload → String

/-- Method `AuthService.loginUser(loginData)`: look the user up by email and
throw the fixed message when absent; compare the password against the
stored hash and throw the same fixed message on mismatch; otherwise sign
a token over `{userId, email, role}` and return the sanitized user with
it.  The catch block only logs and rethrows. -/
def loginUser (env : AuthEnv) (email : String) (password : String) :
    Except String LoginSuccess :=
  match env.findUserByEmail email with
  | none => .error "Invalid email or password"
  | some user =>
    if env.bcryptCompare password user.password then
      .ok
        { user :=
            { id := user.id
              email := user.email
              name := user.name
              role := user.role }
          token := env.sign { userId := user.id, email := user.email, role := user.role } }
    else .error "Invalid email or password"

/-- The HTTP response `WeatherController.getWeather` sends: status code,
envelope `success` flag, and the `error` message when present. -/
structure HttpWeatherResponse where
  status : Nat
  success : Bool
  errorMsg : Option String
deriving DecidableEq, Repr

/-- Method `WeatherController.getWeather`: a resolved service call becomes a
200 with the reading; ANY rejection is caught by the single catch block
and becomes a 400 carrying the error's message. -/
def weatherControllerGetWeather (env : WeatherEnv) (city : String)
    (userId : String) : HttpWeatherResponse :=
  match (getWeatherData env city userId).result with
  | .ok _ => { status := 200, success := true, errorMsg := none }
  | .error e => { status := 400, success := false, errorMsg := some e.message }

/-! ## Concrete test fixtures used by the witness theorems -/

/-- A provider response for Istanbul, as in the service tests. -/
def okResp : OpenWeatherResponse :=
  { weather := [{ description := "Sunny", icon := "01d" }]
    main := { temp := 25, humidity := 60 }
    sys := { country := "TR" }
    name := "Istanbul" }

/-- Environment whose cache holds the serialized Istanbul reading. -/
def hitEnv : WeatherEnv :=
  { cache := fun k => if k = "weather:istanbul" then some (buildWeatherData okResp) else none
    provider := fun _ => .ok okResp
    cacheSetOk := true
    dbCreateOk := true }

/-- Environment with an empty cache and a healthy provider. -/
def missEnv : WeatherEnv :=
  { cache := fun _ => none
    provider := fun _ => .ok okResp
    cacheSetOk := true
    dbCreateOk := true }

/-- Environment with an empty cache whose provider answers HTTP 404. -/
def notFoundEnv : WeatherEnv :=
  { cache := fun _ => none
    provider := fun _ => .axiosError (some 404)
    cacheSetOk := true
    dbCreateOk := true }

/-- A redis environment whose scan finds two weather keys. -/
def twoKeysRedis : RedisEnv :=
  { keysResult := .ok ["weather:istanbul", "weather:london"], delOk := true }

/-- An auth environment with no registered users. -/
def emptyAuthEnv : AuthEnv :=
  { findUserByEmail := fun _ => none
    bcryptCompare := fun _ _ => false
    sign := fun _ => "tok" }

/-- Fixture of 25 history rows all owned by user `u1`, timestamps 0..24. -/
def sampleDb : WeatherDb :=
  { queries := (List.range 25).map (fun i =>
      { id := toString i
        city := "Istanbul"
        country := some "TR"
        temperature := 25
        humidity := some 60
        description := some "Sunny"
        icon := some "01d"
        userId := "u1"
        createdAt := i })
    users := fun _ => { id := "u1", name := "Test User", email := "test@example.com" } }

/-! ## Helper lemmas -/

/-- Every branch of `getWeatherData` performs exactly one cache read, on
the normalized key. -/
theorem getWeatherData_cacheReads (env : WeatherEnv) (city userId : String) :
    (getWeatherData env city userId).cacheReads = ["weather:" ++ lowercase city] := by
  unfold getWeatherData
  cases h : env.cache ("weather:" ++ lowercase city) with
  | some wd => simp [h]
  | none =>
    cases hp : env.provider city with
    | ok resp => cases hs : env.cacheSetOk <;> simp [h, hp, hs]
    | axiosError status =>
      by_cases h4 : status = some 404 <;> simp [h, hp, h4]
    | otherError => simp [h, hp]

theorem succ_le_div_succ_mul (s l : ℕ) (hl : 0 < l) :
    s + 1 ≤ (s / l + 1) * l := by
  have h1 : l * (s / l) + s % l = s := Nat.div_add_mod s l
  have h2 : s % l < l := Nat.mod_lt s hl
  have h3 : (s / l + 1) * l = l * (s / l) + l := by ring
  omega

/-- The `Math.ceil` of a natural quotient agrees with the rounded-up natural
division. -/
theorem ceil_natCast_div (t l : ℕ) (hl : 1 ≤ l) :
    ⌈(t : ℚ) / (l : ℚ)⌉ = (((t + l - 1) / l : ℕ) : ℤ) := by
  have hl0 : (0 : ℚ) < (l : ℚ) := by exact_mod_cast hl
  rcases Nat.eq_zero_or_pos t with rfl | ht
  · rw [Nat.zero_add, Nat.div_eq_of_lt (by omega)]
    simp
  · obtain ⟨s, rfl⟩ : ∃ s, t = s + 1 := ⟨t - 1, by omega⟩
    have hrep : (s + 1 + l - 1) / l = s / l + 1 := by
      rw [show s + 1 + l - 1 = s + l by omega, Nat.add_div_right _ (by omega)]
    rw [hrep, Int.ceil_eq_iff]
    have hcast1 : ((((s / l + 1 : ℕ) : ℤ)) : ℚ) = ((s / l : ℕ) : ℚ) + 1 := by
      norm_cast
    constructor
    · rw [hcast1, add_sub_cancel_right, lt_div_iff₀ hl0]
      have h1 : s / l * l < s + 1 := Nat.lt_succ_of_le (Nat.div_mul_le_self s l)
      exact_mod_cast h1
    · rw [hcast1, div_le_iff₀ hl0]
      have h3 : s + 1 ≤ (s / l + 1) * l := succ_le_div_succ_mul s l (by omega)
      exact_mod_cast h3

/-! ## Claims -/

/-- Claim C10: the `WeatherService` constructor succeeds exactly when the
`OPENWEATHER_API_KEY` configuration is present and non-empty; otherwise
it throws `OpenWeather API key is required`, so an instance can only
exist with a non-empty API key. -/
theorem weatherServiceConstructor_requires_apiKey
    (apiKeyEnv baseUrlEnv : Option String) :
    ((∃ cfg, weatherServiceConstructor apiKeyEnv baseUrlEnv = .ok cfg) ↔
      ∃ s, apiKeyEnv = some s ∧ s ≠ "") ∧
    ((apiKeyEnv = none ∨ apiKeyEnv = some "") →
      weatherServiceConstructor apiKeyEnv baseUrlEnv =
        .error "OpenWeather API key is required") ∧
    (∀ cfg, weatherServiceConstructor apiKeyEnv baseUrlEnv = .ok cfg →
      cfg.apiKey ≠ "") := by
  unfold weatherServiceConstructor jsOrString
  rcases apiKeyEnv with _ | s
  · simp
  · rcases eq_or_ne s "" with rfl | h
    · simp
    · simp only [if_neg h]
      refine ⟨⟨fun _ => ⟨s, rfl, h⟩, fun _ => ⟨_, rfl⟩⟩, ?_, ?_⟩
      · intro hor
        rcases hor with hc | hc
        · exact absurd hc (by simp)
        · simp only [Option.some.injEq] at hc
          exact absurd hc h
      · intro cfg hc
        injection hc with h2
        subst h2
        exact h

/-- Witness for C10: with the variable unset, construction fails with
the fixed message. -/
theorem weatherServiceConstructor_requires_apiKey_witness :
    weatherServiceConstructor none none =
      .error "OpenWeather API key is required" :=
  (weatherServiceConstructor_requires_apiKey none none).2.1 (Or.inl rfl)

/-- Claim C4: both `getWeatherData` and `clearCache` address the cache
at key `weather:` + lowercase(city) (for `clearCache`, whenever the
optional city argument is truthy, i.e. present and non-empty), so calls
whose cities differ only in casing address the same entry. -/
theorem weather_cache_key_normalized (env : WeatherEnv) (renv : RedisEnv)
    (city userId : String) :
    (getWeatherData env city userId).cacheReads = ["weather:" ++ lowercase city] ∧
    (city ≠ "" → renv.delOk = true →
      (clearCache renv (some city)).deletes = [["weather:" ++ lowercase city]]) ∧
    (∀ c1 c2 : String, lowercase c1 = lowercase c2 →
      (getWeatherData env c1 userId).cacheReads =
        (getWeatherData env c2 userId).cacheReads) := by
  refine ⟨getWeatherData_cacheReads env city userId, ?_, ?_⟩
  · intro hcity hdel
    unfold clearCache
    simp [hcity, hdel]
  · intro c1 c2 h
    rw [getWeatherData_cacheReads, getWeatherData_cacheReads, h]

/-- Witness for C4: `Istanbul` and `ISTANBUL` read the same key, and a
targeted clear deletes exactly that key. -/
theorem weather_cache_key_normalized_witness :
    (getWeatherData missEnv "Istanbul" "u1").cacheReads = ["weather:istanbul"] ∧
    (clearCache twoKeysRedis (some "Istanbul")).deletes = [["weather:istanbul"]] ∧
    (getWeatherData missEnv "ISTANBUL" "u1").cacheReads =
      (getWeatherData missEnv "Istanbul" "u1").cacheReads := by
  have h := weather_cache_key_normalized missEnv twoKeysRedis "Istanbul" "u1"
  refine ⟨?_, ?_, ?_⟩
  · rw [h.1]
    decide
  · rw [h.2.1 (by decide) rfl]
    decide
  · exact h.2.2 "ISTANBUL" "Istanbul" (by decide)

/-- Claim C8: every failing login, for an unknown email as much as for a
wrong password, throws the identical message `Invalid email or
password`; a successful login returns the sanitized user together with
the token signed over its id, email and role. -/
theorem loginUser_uniform_failure (env : AuthEnv) (email password : String) :
    (∀ msg, loginUser env email password = .error msg →
      msg = "Invalid email or password") ∧
    (env.findUserByEmail email = none →
      loginUser env email password = .error "Invalid email or password") ∧
    (∀ user, env.findUserByEmail email = some user →
      (env.bcryptCompare password user.password = false →
        loginUser env email password = .error "Invalid email or password") ∧
      (env.bcryptCompare password user.password = true →
        loginUser env email password = .ok
          { user :=
              { id := user.id
                email := user.email
                name := user.name
                role := user.role }
            token := env.sign
              { userId := user.id, email := user.email, role := user.role } })) := by
  have hnone : env.findUserByEmail email = none →
      loginUser env email password = .error "Invalid email or password" := by
    intro h
    unfold loginUser
    rw [h]
  have hbad : ∀ user, env.findUserByEmail email = some user →
      env.bcryptCompare password user.password = false →
      loginUser env email password = .error "Invalid email or password" := by
    intro u h hc
    unfold loginUser
    rw [h]
    simp [hc]
  have hgood : ∀ user, env.findUserByEmail email = some user →
      env.bcryptCompare password user.password = true →
      loginUser env email password = .ok
        { user := { id := user.id, email := user.email, name := user.name, role := user.role }
          token := env.sign
            { userId := user.id, email := user.email, role := user.role } } := by
    intro u h hc
    unfold loginUser
    rw [h]
    simp [hc]
  refine ⟨?_, hnone, fun user hu => ⟨hbad user hu, hgood user hu⟩⟩
  intro msg hmsg
  cases hfind : env.findUserByEmail email with
  | none =>
    rw [hnone hfind] at hmsg
    injection hmsg with h
    exact h.symm
  | some user =>
    cases hcmp : env.bcryptCompare password user.password with
    | false =>
      rw [hbad user hfind hcmp] at hmsg
      injection hmsg with h
      exact h.symm
    | true =>
      rw [hgood user hfind hcmp] at hmsg
      exact Except.noConfusion hmsg

/-- Witness for C8: with no registered users, any login fails with the
fixed message. -/
theorem loginUser_uniform_failure_witness :
    loginUser emptyAuthEnv "a@b.co" "pw" = .error "Invalid email or password" :=
  (loginUser_uniform_failure emptyAuthEnv "a@b.co" "pw").2.1 rfl

/-- Claim C2: a successful lookup attempts exactly one history write
tied to the caller's user id, and a failing datastore create never
fails the call: the result is unchanged when the create throws. -/
theorem getWeatherData_history_best_effort (env : WeatherEnv)
    (city userId : String) (wd : WeatherData)
    (hOk : (getWeatherData env city userId).result = .ok wd) :
    (env.dbCreateOk = true →
      ∃ rec, (getWeatherData env city userId).historyWrites = [rec] ∧
        rec.userId = userId) ∧
    (getWeatherData { env with dbCreateOk := false } city userId).result =
      (getWeatherData env city userId).result := by
  cases hc : env.cache ("weather:" ++ lowercase city) with
  | some w =>
    constructor
    · intro hdb
      refine ⟨historyRecordOf w userId, ?_, rfl⟩
      simp [getWeatherData, hc, saveWeatherQuery, hdb]
    · simp [getWeatherData, hc]
  | none =>
    cases hp : env.provider city with
    | ok resp =>
      cases hs : env.cacheSetOk with
      | true =>
        constructor
        · intro hdb
          refine ⟨historyRecordOf (buildWeatherData resp) userId, ?_, rfl⟩
          simp [getWeatherData, hc, hp, hs, saveWeatherQuery, hdb]
        · simp [getWeatherData, hc, hp, hs]
      | false =>
        exfalso
        simp [getWeatherData, hc, hp, hs] at hOk
    | axiosError status =>
      exfalso
      by_cases h4 : status = some 404 <;> simp [getWeatherData, hc, hp, h4] at hOk
    | otherError =>
      exfalso
      simp [getWeatherData, hc, hp] at hOk

/-- Witness for C2: a cache hit for Istanbul writes one history row for
`u1`, and the result survives a failing create. -/
theorem getWeatherData_history_best_effort_witness :
    (∃ rec, (getWeatherData hitEnv "Istanbul" "u1").historyWrites = [rec] ∧
      rec.userId = "u1") ∧
    (getWeatherData { hitEnv with dbCreateOk := false } "Istanbul" "u1").result =
      (getWeatherData hitEnv "Istanbul" "u1").result := by
  have h := getWeatherData_history_best_effort hitEnv "Istanbul" "u1"
    (buildWeatherData okResp) rfl
  exact ⟨h.1 rfl, h.2⟩

/-- Claim C3: on a cache miss, a provider 404 fails with the
city-not-found error whose message contains the city, any other
provider failure fails with the generic message, and in every failure
case nothing is cached and no history row is created. -/
theorem getWeatherData_provider_failure (env : WeatherEnv)
    (city userId : String)
    (hMiss : env.cache ("weather:" ++ lowercase city) = none) :
    (env.provider city = .axiosError (some 404) →
      (getWeatherData env city userId).result = .error (.cityNotFound city) ∧
      (getWeatherData env city userId).cacheWrites = [] ∧
      (getWeatherData env city userId).historyWrites = []) ∧
    (∀ status, status ≠ some 404 → env.provider city = .axiosError status →
      (getWeatherData env city userId).result = .error .fetchFailed ∧
      (getWeatherData env city userId).cacheWrites = [] ∧
      (getWeatherData env city userId).historyWrites = []) ∧
    (env.provider city = .otherError →
      (getWeatherData env city userId).result = .error .fetchFailed ∧
      (getWeatherData env city userId).cacheWrites = [] ∧
      (getWeatherData env city userId).historyWrites = []) ∧
    (∃ pre post, (WeatherError.cityNotFound city).message = pre ++ city ++ post) ∧
    WeatherError.fetchFailed.message = "Failed to fetch weather data" := by
  refine ⟨?_, ?_, ?_, ⟨"City '", "' not found", rfl⟩, rfl⟩
  · intro hp
    simp [getWeatherData, hMiss, hp]
  · intro status h4 hp
    simp [getWeatherData, hMiss, hp, h4]
  · intro hp
    simp [getWeatherData, hMiss, hp]

/-- Witness for C3: a provider 404 for Nonexistentville yields the
not-found error and no writes. -/
theorem getWeatherData_provider_failure_witness :
    (getWeatherData notFoundEnv "Nonexistentville" "u1").result =
      .error (.cityNotFound "Nonexistentville") ∧
    (getWeatherData notFoundEnv "Nonexistentville" "u1").cacheWrites = [] ∧
    (getWeatherData notFoundEnv "Nonexistentville" "u1").historyWrites = [] :=
  (getWeatherData_provider_failure notFoundEnv "Nonexistentville" "u1" rfl).1 rfl

/-- Claim C5: on a cache miss with a successful provider response, the
returned reading is built from the provider fields (name, country,
temp, humidity, first condition's description and icon, empty strings
for an empty condition list) and is written to the cache under the
normalized key with a 300-second TTL. -/
theorem getWeatherData_miss_success (env : WeatherEnv) (city userId : String)
    (resp : OpenWeatherResponse)
    (hMiss : env.cache ("weather:" ++ lowercase city) = none)
    (hProv : env.provider city = .ok resp)
    (hSet : env.cacheSetOk = true) :
    (getWeatherData env city userId).result = .ok (buildWeatherData resp) ∧
    (getWeatherData env city userId).cacheWrites =
      [{ key := "weather:" ++ lowercase city, ttl := 300,
         value := buildWeatherData resp }] ∧
    (buildWeatherData resp).city = resp.name ∧
    (buildWeatherData resp).country = some resp.sys.country ∧
    (buildWeatherData resp).temperature = resp.main.temp ∧
    (buildWeatherData resp).humidity = some resp.main.humidity ∧
    (resp.weather = [] →
      (buildWeatherData resp).description = some "" ∧
      (buildWeatherData resp).icon = some "") ∧
    (∀ w ws, resp.weather = w :: ws →
      (buildWeatherData resp).description = some w.description ∧
      (buildWeatherData resp).icon = some w.icon) := by
  refine ⟨?_, ?_, rfl, rfl, rfl, rfl, ?_, ?_⟩
  · simp [getWeatherData, hMiss, hProv, hSet]
  · simp [getWeatherData, hMiss, hProv, hSet]
  · intro hw
    simp [buildWeatherData, hw]
  · intro w ws hw
    simp [buildWeatherData, hw]

/-- Witness for C5: the fresh Istanbul lookup returns the built reading
and caches it for 300 seconds. -/
theorem getWeatherData_miss_success_witness :
    (getWeatherData missEnv "Istanbul" "u1").result = .ok (buildWeatherData okResp) ∧
    (getWeatherData missEnv "Istanbul" "u1").cacheWrites =
      [{ key := "weather:istanbul", ttl := 300, value := buildWeatherData okResp }] := by
  have h := getWeatherData_miss_success missEnv "Istanbul" "u1" okResp rfl rfl rfl
  refine ⟨h.1, ?_⟩
  rw [h.2.1]
  decide

/-- Claim C7: a truthy city deletes exactly its normalized key; no city
scans `weather:*` and deletes the found keys in one batch, a no-op
without error when none exist; any store failure on either path throws
`Failed to clear cache`. -/
theorem clearCache_spec (env : RedisEnv) (city : String) (ks : List String) :
    (city ≠ "" → env.delOk = true →
      clearCache env (some city) =
        { result := .ok (), scans := [],
          deletes := [["weather:" ++ lowercase city]] }) ∧
    (city ≠ "" → env.delOk = false →
      (clearCache env (some city)).result = .error "Failed to clear cache") ∧
    (env.keysResult = .ok ks → ks ≠ [] → env.delOk = true →
      clearCache env none =
        { result := .ok (), scans := ["weather:*"], deletes := [ks] }) ∧
    (env.keysResult = .ok ks → ks ≠ [] → env.delOk = false →
      (clearCache env none).result = .error "Failed to clear cache") ∧
    (env.keysResult = .ok [] →
      clearCache env none =
        { result := .ok (), scans := ["weather:*"], deletes := [] }) ∧
    (env.keysResult = .error () →
      (clearCache env none).result = .error "Failed to clear cache") := by
  refine ⟨?_, ?_, ?_, ?_, ?_, ?_⟩
  · intro hc hd
    simp [clearCache, hc, hd]
  · intro hc hd
    simp [clearCache, hc, hd]
  · intro hk hne hd
    have hpos : 0 < ks.length := List.length_pos.mpr hne
    simp [clearCache, clearCache.clearCacheAll, hk, hd, hpos]
  · intro hk hne hd
    have hpos : 0 < ks.length := List.length_pos.mpr hne
    simp [clearCache, clearCache.clearCacheAll, hk, hd, hpos]
  · intro hk
    simp [clearCache, clearCache.clearCacheAll, hk]
  · intro hk
    simp [clearCache, clearCache.clearCacheAll, hk]

/-- Witness for C7: a targeted clear for Istanbul and a full clear over
two found keys. -/
theorem clearCache_spec_witness :
    clearCache twoKeysRedis (some "Istanbul") =
      { result := .ok (), scans := [], deletes := [["weather:istanbul"]] } ∧
    clearCache twoKeysRedis none =
      { result := .ok (), scans := ["weather:*"],
        deletes := [["weather:istanbul", "weather:london"]] } := by
  have h := clearCache_spec twoKeysRedis "Istanbul"
    ["weather:istanbul", "weather:london"]
  constructor
  · rw [h.1 (by decide) rfl]
    congr 1
  · rw [h.2.2.1 rfl (by decide) rfl]

/-- Claim C9 is false on the code: for an unknown city the controller
responds 400, not 404 (there is no error taxonomy in the source; every
`getWeatherData` rejection is mapped to 400, and the controller test
expects 400 for `City not found`). -/
theorem weatherController_notFound_status_counterexample :
    (weatherControllerGetWeather notFoundEnv "Nonexistentville" "u1").status = 400 ∧
    ¬ (weatherControllerGetWeather notFoundEnv "Nonexistentville" "u1").status = 404 := by
  constructor
  · rfl
  · decide

/-- Claim C9 (amended): when a weather lookup fails — for an unknown
city exactly as for any other dependency failure — the response of
POST /api/weather/current carries status code 400 with the error's
message; the code assigns no 404 status to the not-found case. -/
theorem weatherController_error_status_400 (env : WeatherEnv)
    (city userId : String) (e : WeatherError)
    (h : (getWeatherData env city userId).result = .error e) :
    weatherControllerGetWeather env city userId =
      { status := 400, success := false, errorMsg := some e.message } := by
  unfold weatherControllerGetWeather
  rw [h]

/-- Witness for C9 (amended) at Nonexistentville. -/
theorem weatherController_error_status_400_witness :
    weatherControllerGetWeather notFoundEnv "Nonexistentville" "u1" =
      { status := 400, success := false,
        errorMsg := some (WeatherError.cityNotFound "Nonexistentville").message } :=
  weatherController_error_status_400 notFoundEnv "Nonexistentville" "u1"
    (.cityNotFound "Nonexistentville") rfl

/-- Claim C1: when the cache holds the serialization of the same
provider data, a cache hit and a cache miss return the identical
reading with the identical success, and differ only in whether the
provider is called. -/
theorem getWeatherData_cache_hit_miss_equiv (envH envM : WeatherEnv)
    (city userId : String) (resp : OpenWeatherResponse)
    (hHit : envH.cache ("weather:" ++ lowercase city) = some (buildWeatherData resp))
    (hMiss : envM.cache ("weather:" ++ lowercase city) = none)
    (hProv : envM.provider city = .ok resp)
    (hSet : envM.cacheSetOk = true) :
    (getWeatherData envH city userId).result =
      (getWeatherData envM city userId).result ∧
    (getWeatherData envH city userId).result = .ok (buildWeatherData resp) ∧
    (getWeatherData envH city userId).providerCalled = false ∧
    (getWeatherData envM city userId).providerCalled = true := by
  simp only [getWeatherData, hHit, hMiss, hProv, hSet]
  simp

/-- Witness for C1 at Istanbul: a prepopulated cache and an empty cache
produce the same result. -/
theorem getWeatherData_cache_hit_miss_equiv_witness :
    (getWeatherData hitEnv "Istanbul" "u1").result =
      (getWeatherData missEnv "Istanbul" "u1").result ∧
    (getWeatherData hitEnv "Istanbul" "u1").result = .ok (buildWeatherData okResp) ∧
    (getWeatherData hitEnv "Istanbul" "u1").providerCalled = false ∧
    (getWeatherData missEnv "Istanbul" "u1").providerCalled = true :=
  getWeatherData_cache_hit_miss_equiv hitEnv missEnv "Istanbul" "u1" okResp
    (by decide) rfl rfl rfl

/-- Any returned history record stems from the visibility clause and
carries its owner's selected user fields. -/
theorem getWeatherQueries_data_mem {db : WeatherDb} {userId : String}
    {userRole : UserRole} {page limit : Nat} {x : QueryWithUser}
    (hx : x ∈ (getWeatherQueries db userId userRole page limit).data) :
    x.query ∈ visibleQueries db userId userRole ∧
    x.user = db.users x.query.userId := by
  simp only [getWeatherQueries] at hx
  rw [List.mem_map] at hx
  obtain ⟨q, hq, rfl⟩ := hx
  have hsub : List.Sublist
      (((List.insertionSort newerFirst
        (visibleQueries db userId userRole)).drop ((page - 1) * limit)).take limit)
      (List.insertionSort newerFirst (visibleQueries db userId userRole)) :=
    (List.take_sublist _ _).trans (List.drop_sublist _ _)
  have hmem := hsub.subset hq
  rw [List.mem_insertionSort] at hmem
  exact ⟨hmem, rfl⟩

/-- The returned page is ordered newest-first. -/
theorem getWeatherQueries_data_sorted (db : WeatherDb) (userId : String)
    (userRole : UserRole) (page limit : Nat) :
    List.Sorted (fun x y : QueryWithUser => y.query.createdAt ≤ x.query.createdAt)
      (getWeatherQueries db userId userRole page limit).data := by
  have hs : List.Sorted newerFirst
      (List.insertionSort newerFirst (visibleQueries db userId userRole)) :=
    List.sorted_insertionSort newerFirst _
  have hsub : List.Sublist
      (((List.insertionSort newerFirst
        (visibleQueries db userId userRole)).drop ((page - 1) * limit)).take limit)
      (List.insertionSort newerFirst (visibleQueries db userId userRole)) :=
    (List.take_sublist _ _).trans (List.drop_sublist _ _)
  have hpair := hs.sublist hsub
  exact hpair.map _ (fun a b h => h)

/-- The page length is the limit, clipped at what remains past the
offset. -/
theorem getWeatherQueries_data_length (db : WeatherDb) (userId : String)
    (userRole : UserRole) (page limit : Nat) :
    (getWeatherQueries db userId userRole page limit).data.length =
      min limit ((visibleQueries db userId userRole).length - (page - 1) * limit) := by
  simp only [getWeatherQueries]
  rw [List.length_map, List.length_take, List.length_drop,
    List.length_insertionSort]

/-- Claim C6: `getWeatherQueries` filters by the role visibility rule
(ADMIN sees all rows, USER only its own), pages with offset
(page - 1) * limit (the TS defaults being page 1, limit 10), orders
newest-first, joins each row with the owning user's id/name/email, and
reports the total together with totalPages = ceil(total / limit); in
particular page 1, limit 10 over 25 rows of one USER returns 10 records
with totalPages 3. -/
theorem getWeatherQueries_pagination :
    (∀ (db : WeatherDb) (userId : String) (userRole : UserRole)
      (page limit : Nat), 1 ≤ page → 1 ≤ limit →
      (userRole ≠ .ADMIN →
        ∀ x ∈ (getWeatherQueries db userId userRole page limit).data,
          x.query.userId = userId) ∧
      (userRole = .ADMIN →
        (getWeatherQueries db userId userRole page limit).pageInfo.total =
          db.queries.length) ∧
      (getWeatherQueries db userId userRole page limit).data.length =
        min limit
          ((getWeatherQueries db userId userRole page limit).pageInfo.total -
            (page - 1) * limit) ∧
      List.Sorted (fun x y : QueryWithUser => y.query.createdAt ≤ x.query.createdAt)
        (getWeatherQueries db userId userRole page limit).data ∧
      (∀ x ∈ (getWeatherQueries db userId userRole page limit).data,
        x.user = db.users x.query.userId) ∧
      (getWeatherQueries db userId userRole page limit).pageInfo.page = page ∧
      (getWeatherQueries db userId userRole page limit).pageInfo.limit = limit ∧
      (getWeatherQueries db userId userRole page limit).pageInfo.totalPages =
        ((((getWeatherQueries db userId userRole page limit).pageInfo.total +
          limit - 1) / limit : ℕ) : ℤ) ∧
      getWeatherQueriesDefault db userId userRole =
        getWeatherQueries db userId userRole 1 10) ∧
    (getWeatherQueries sampleDb "u1" .USER 1 10).data.length = 10 ∧
    (getWeatherQueries sampleDb "u1" .USER 1 10).pageInfo.totalPages = 3 := by
  have h25 : (visibleQueries sampleDb "u1" UserRole.USER).length = 25 := by decide
  have hinst : (getWeatherQueries sampleDb "u1" UserRole.USER 1 10).pageInfo.totalPages = 3 := by
    show ⌈(((visibleQueries sampleDb "u1" UserRole.USER).length : ℕ) : ℚ) /
      ((10 : ℕ) : ℚ)⌉ = 3
    rw [h25, ceil_natCast_div 25 10 (by decide)]
    decide
  refine ⟨?_, by decide, hinst⟩
  intro db userId userRole page limit hp hl
  refine ⟨?_, ?_, getWeatherQueries_data_length db userId userRole page limit,
    getWeatherQueries_data_sorted db userId userRole page limit,
    fun x hx => (getWeatherQueries_data_mem hx).2, rfl, rfl, ?_, rfl⟩
  · intro hrole x hx
    have hv := (getWeatherQueries_data_mem hx).1
    cases userRole with
    | ADMIN => exact absurd rfl hrole
    | USER =>
      unfold visibleQueries at hv
      simp only [List.mem_filter] at hv
      exact of_decide_eq_true hv.2
  · intro hrole
    subst hrole
    rfl
  · exact ceil_natCast_div (visibleQueries db userId userRole).length limit hl

/-- Witness for C6: the concrete 25-row USER dataset at page 1,
limit 10. -/
theorem getWeatherQueries_pagination_witness :
    (getWeatherQueries sampleDb "u1" UserRole.USER 1 10).data.length =
      min 10
        ((getWeatherQueries sampleDb "u1" UserRole.USER 1 10).pageInfo.total -
          (1 - 1) * 10) := by
  have h := getWeatherQueries_pagination.1 sampleDb "u1" UserRole.USER 1 10
    (by decide) (by decide)
  exact h.2.2.1
